import Mathlib

/-!
Verification of the Caishen wallet-agent decision/dispatch pipeline
(src/bot/src/llm/wallet_agent.py, tools.py, domains.py).

The pipeline is shallowly embedded: the generative calls (domain
classifier, tool selector, chat model) and the actions themselves are
modelled as oracle inputs, and every `try/except` handler of the Python
source is translated explicitly, so the Lean functions are total.
Python floats/ints are modelled as rationals (numeric display formatting
is abstracted), Python `None`/strings/bools as a small `Value` type, and
argument dicts as ordered association lists with dict update semantics.
-/

namespace Caishen

/-! ## Python-style values and argument bags -/

/-- A Python value as it appears in a tool argument bag / result dict. -/
inductive Value where
  | str : String → Value
  | num : ℚ → Value
  | bool : Bool → Value
  | none : Value
deriving DecidableEq, Repr

/-- Python truthiness for `Value`. -/
def Value.truthy : Value → Bool
  | .str s => s ≠ ""
  | .num q => q ≠ 0
  | .bool b => b
  | .none => false

/-- Display string of a value, as interpolated by Python f-strings.
Numeric formatting is abstracted (no claim exercises float repr). -/
def Value.pyStr : Value → String
  | .str s => s
  | .num q => toString q
  | .bool b => if b then "True" else "False"
  | .none => "None"

/-- An argument bag (Python dict with string keys), insertion-ordered. -/
abbrev Args := List (String × Value)

/-- Dict lookup (`d.get(k)` / `d[k]`). -/
def getArg : Args → String → Option Value
  | [], _ => Option.none
  | (k, v) :: t, key => if k = key then some v else getArg t key

/-- Dict assignment (`d[k] = v`): update in place, else append. -/
def setArg : Args → String → Value → Args
  | [], key, v => [(key, v)]
  | (k, w) :: t, key, v => if k = key then (key, v) :: t else (k, w) :: setArg t key v

/-- `k in d`. -/
def hasKey (d : Args) (k : String) : Bool := (getArg d k).isSome

/-- `d.get(k)` truthiness test (`if result.get("error"):`). -/
def getTruthy (d : Args) (k : String) : Bool :=
  match getArg d k with
  | some v => v.truthy
  | Option.none => false

/-- `d.get(k, default)` rendered to a string (`state["result"] = result.get(...)`). -/
def getStrOr (d : Args) (k dflt : String) : String :=
  match getArg d k with
  | some v => v.pyStr
  | Option.none => dflt

/-- Python `str(dict)` display (braces written escaped). -/
def pyStrDict (d : Args) : String :=
  "\x7b" ++ String.intercalate ", "
    (d.map (fun p => "\x27" ++ p.1 ++ "\x27: " ++ p.2.pyStr)) ++ "\x7d"

/-! ## Domains (src/bot/src/llm/domains.py) -/

/-- Wallet action domains (class Domain, a str enum). -/
inductive Domain where
  | payments
  | balance
  | nfts
  | contacts
  | history
  | help
  | conversation
deriving DecidableEq, Repr

/-- The str-enum value of a domain (`domain.value`). -/
def Domain.value : Domain → String
  | .payments => "payments"
  | .balance => "balance"
  | .nfts => "nfts"
  | .contacts => "contacts"
  | .history => "history"
  | .help => "help"
  | .conversation => "conversation"

/-- Structured output of the semantic classifier (class DomainDecision). -/
structure DomainDecision where
  domain : Domain
  confidence : ℚ
  reason : String
  requires_wallet : Bool
deriving DecidableEq, Repr

/-! ## Substring search and lowercasing (Python `needle in haystack`, `s.lower()`) -/

/-- ASCII lowercasing of one character (Python `str.lower` restricted to ASCII,
which covers every input used by the keyword tables and the claims). -/
def lowerChar (c : Char) : Char :=
  if 'A' ≤ c && c ≤ 'Z' then Char.ofNat (c.toNat + 32) else c

/-- Python `s.lower()` (ASCII). -/
def strLower (s : String) : String := String.mk (s.toList.map lowerChar)

/-- `needle` is a prefix of `hay`. -/
def isPre : List Char → List Char → Bool
  | [], _ => true
  | _ :: _, [] => false
  | a :: as, b :: bs => a == b && isPre as bs

/-- `needle` occurs somewhere in `hay`. -/
def subList (needle : List Char) : List Char → Bool
  | [] => isPre needle []
  | c :: t => isPre needle (c :: t) || subList needle t

/-- Python `needle in hay` on strings. -/
def strIn (needle hay : String) : Bool := subList needle.toList hay.toList

/-! ## Keyword classification (wallet_agent.py lines 28-45) -/

/-- KEYWORD_TO_DOMAIN, in dict insertion order. -/
def KEYWORD_TO_DOMAIN : List (Domain × List String) :=
  [ (.balance, ["balance", "how much sui", "how much do i have", "check wallet",
      "my funds", "wallet balance", "show balance"]),
    (.payments, ["send", "transfer", "pay", "give sui"]),
    (.contacts, ["contacts", "contact", "address book", "add contact", "delete contact",
      "remove contact", "save address", "show contacts", "my contacts"]),
    (.history, ["history", "transactions", "recent", "activity", "what did i send",
      "what did i receive", "show history", "transaction history"]),
    (.nfts, ["nft", "nfts", "collectibles", "digital art", "show nft", "my nft"]),
    (.help, ["help", "commands", "what can you do", "how do i", "reset",
      "clear history", "start over", "start", "connect", "link wallet"]) ]

/-- keyword_classify: first domain one of whose keywords occurs in the lowered text. -/
def keyword_classify (user_input : String) : Option Domain :=
  let text_lower := strLower user_input
  (KEYWORD_TO_DOMAIN.find? (fun p => p.2.any (fun k => strIn k text_lower))).map (fun p => p.1)

example : keyword_classify "what is my Balance?" = some Domain.balance := by decide
example : keyword_classify "hello" = Option.none := by decide
example : keyword_classify "it is not a payment, send it" = some Domain.payments := by decide

/-! ## Domain classification node (wallet_agent.py lines 161-229) -/

/-- The fixed wallet-required domain set (lines 206, 222, 237). -/
def walletRequiredDomains : List Domain := [.balance, .payments, .history, .nfts]

/-- Result of the classify node: the fields it writes into the graph state. -/
structure Classification where
  domain : Domain
  domain_confidence : ℚ
  domain_reason : String
  requires_wallet : Bool
deriving DecidableEq, Repr

/-- _classify_domain. The semantic classifier call is an oracle:
`some decision` models a successful structured-output call, `Option.none`
models the call raising (the `except` branch of lines 215-227). -/
def classifyDomain (llm : Option DomainDecision) (user_input : String) : Classification :=
  let keyword_domain := keyword_classify user_input
  match llm with
  | some decision =>
    match keyword_domain with
    | some k =>
      if decision.domain = Domain.conversation then
        { domain := k, domain_confidence := 0.8,
          domain_reason := "Keyword match for " ++ k.value,
          requires_wallet := walletRequiredDomains.contains k }
      else
        { domain := decision.domain, domain_confidence := decision.confidence,
          domain_reason := decision.reason, requires_wallet := decision.requires_wallet }
    | Option.none =>
      { domain := decision.domain, domain_confidence := decision.confidence,
        domain_reason := decision.reason, requires_wallet := decision.requires_wallet }
  | Option.none =>
    match keyword_domain with
    | some k =>
      { domain := k, domain_confidence := 0.7,
        domain_reason := "Keyword fallback: " ++ k.value,
        requires_wallet := walletRequiredDomains.contains k }
    | Option.none =>
      { domain := Domain.conversation, domain_confidence := 0.5,
        domain_reason := "Classification error, defaulting to conversation",
        requires_wallet := false }

/-! ## Wallet gate (wallet_agent.py lines 231-262) -/

/-- Python truthiness of an optional string (`not wallet_address`). -/
def optTruthy : Option String → Bool
  | some s => s ≠ ""
  | Option.none => false

/-- The action_name lookup used in the gate message (lines 241-246). -/
def walletActionName : Domain → String
  | .balance => "check your balance"
  | .payments => "send SUI"
  | .history => "view transaction history"
  | .nfts => "view your NFTs"
  | _ => "do that"

/-- _check_wallet_required: `some text` means the gate fired
(state.error = "no_wallet" with the given result text). -/
def checkWalletRequired (c : Classification) (wallet_address : Option String) : Option String :=
  if c.requires_wallet && !(optTruthy wallet_address)
      && walletRequiredDomains.contains c.domain then
    some ("❌ No wallet linked. Use /start to connect your Sui wallet first to "
      ++ walletActionName c.domain ++ ".")
  else Option.none

/-! ## Tool registry (tools.py) -/

/-- An action: its registry name and declared parameter list, in signature order. -/
structure ToolSpec where
  name : String
  params : List String
deriving DecidableEq, Repr

/-- TOOL_REGISTRY (tools.py lines 262-286), with the declared signature of each action. -/
def TOOL_REGISTRY : List ToolSpec :=
  [ ⟨"get_balance", ["wallet_address"]⟩,
    ⟨"send_sui", ["recipient", "amount", "wallet_address", "user_id"]⟩,
    ⟨"list_contacts", ["user_id"]⟩,
    ⟨"add_new_contact", ["user_id", "name", "address"]⟩,
    ⟨"delete_contact", ["user_id", "name"]⟩,
    ⟨"get_transaction_history", ["wallet_address", "limit"]⟩,
    ⟨"get_nfts", ["wallet_address", "limit"]⟩,
    ⟨"get_help", []⟩,
    ⟨"reset_conversation", ["user_id"]⟩,
    ⟨"disconnect_wallet", ["user_id"]⟩,
    ⟨"full_reset", ["user_id"]⟩ ]

/-- `self.tool_registry.get(tool_name)`. -/
def registryFind (n : String) : Option ToolSpec := TOOL_REGISTRY.find? (fun t => t.name = n)

/-- DOMAIN_TOOLS (tools.py lines 276-284), by tool name. -/
def DOMAIN_TOOLS : Domain → List String
  | .balance => ["get_balance"]
  | .payments => ["send_sui"]
  | .contacts => ["list_contacts", "add_new_contact", "delete_contact"]
  | .history => ["get_transaction_history"]
  | .nfts => ["get_nfts"]
  | .help => ["get_help", "reset_conversation", "disconnect_wallet", "full_reset"]
  | .conversation => []

/-! ## Regex helpers of _fallback_tool_selection (wallet_agent.py lines 317-387)

Each Python `re.search` is translated as a leftmost scan that attempts the
pattern at every start position, exactly as the `re` engine does. -/

/-- `[0-9]`. -/
def isDigitCh (c : Char) : Bool := '0' ≤ c && c ≤ '9'

/-- `[a-fA-F0-9]`. -/
def isHexCh (c : Char) : Bool :=
  isDigitCh c || ('a' ≤ c && c ≤ 'f') || ('A' ≤ c && c ≤ 'F')

/-- `[a-zA-Z0-9_\-]` (the capture class of the name/recipient patterns). -/
def isWordCh (c : Char) : Bool :=
  isDigitCh c || ('a' ≤ c && c ≤ 'z') || ('A' ≤ c && c ≤ 'Z') || c == '_' || c == '-'

/-- `\s` (ASCII whitespace). -/
def isSpaceCh (c : Char) : Bool :=
  c == ' ' || c == '\t' || c == '\n' || c == '\r' || c == '\x0b' || c == '\x0c'

/-- Value of a digit run. -/
def digitsToNat (l : List Char) : Nat := l.foldl (fun a c => 10 * a + (c.toNat - 48)) 0

/-- Try the pattern at every position, left to right (re.search semantics). -/
def scanFirst {α : Type} (m : List Char → Option α) : List Char → Option α
  | [] => Option.none
  | c :: t =>
    match m (c :: t) with
    | some r => some r
    | Option.none => scanFirst m t

/-- `([0-9]+(?:\.[0-9]+)?)` matched at this position, as a rational
(Python parses the token with `float`; only sign and magnitude matter here). -/
def numberAt (l : List Char) : Option ℚ :=
  let ds := l.takeWhile isDigitCh
  if ds.isEmpty then Option.none
  else
    match l.drop ds.length with
    | '.' :: r2 =>
      let fs := r2.takeWhile isDigitCh
      if fs.isEmpty then some (mkRat (Int.ofNat (digitsToNat ds)) 1)
      else some (mkRat (Int.ofNat (digitsToNat ds * 10 ^ fs.length + digitsToNat fs))
        (10 ^ fs.length))
    | _ => some (mkRat (Int.ofNat (digitsToNat ds)) 1)

/-- first_number (lines 325-327). -/
def first_number (s : String) : Option ℚ := scanFirst numberAt s.toList

/-- `(0x[a-fA-F0-9]{40,64})` matched at this position (greedy, up to 64). -/
def addrAt : List Char → Option String
  | '0' :: 'x' :: rest =>
    let hs := rest.takeWhile isHexCh
    if hs.length < 40 then Option.none
    else some (String.mk ('0' :: 'x' :: hs.take 64))
  | _ => Option.none

/-- find_address (lines 329-331). -/
def find_address (s : String) : Option String := scanFirst addrAt s.toList

/-- Case-insensitive literal match; returns the rest of the text. -/
def litAt : List Char → List Char → Option (List Char)
  | [], rest => some rest
  | _ :: _, [] => Option.none
  | a :: as, b :: bs => if lowerChar a == lowerChar b then litAt as bs else Option.none

/-- `\s+([a-zA-Z0-9_\-]+)`: whitespace then a captured word. -/
def spaceThenWord (l : List Char) : Option String :=
  let ws := l.takeWhile isSpaceCh
  if ws.isEmpty then Option.none
  else
    let w := (l.drop ws.length).takeWhile isWordCh
    if w.isEmpty then Option.none else some (String.mk w)

/-- `(?:v1|v2|...)\s+(word)` at this position, alternatives in order. -/
def verbCaptureAt (verbs : List String) (l : List Char) : Option String :=
  verbs.findSome? fun v =>
    match litAt v.toList l with
    | some rest => spaceThenWord rest
    | Option.none => Option.none

/-- `re.search(r"(?:v1|v2)\s+([a-zA-Z0-9_\-]+)", s, re.IGNORECASE)`, the capture. -/
def verbCapture (verbs : List String) (s : String) : Option String :=
  scanFirst (verbCaptureAt verbs) s.toList

example : first_number "send 1.5 SUI now" = some (mkRat 3 2) := by decide
example : first_number "send one sui to 0xabc" = some 0 := by decide
example : find_address ("pay 0x" ++ String.mk (List.replicate 40 'a')) =
    some ("0x" ++ String.mk (List.replicate 40 'a')) := by decide
example : verbCapture ["add", "save"] "please Add contact bob" = some "contact" := by decide
example : verbCapture ["to"] "send 2 to alice now" = some "alice" := by decide

/-! ## Deterministic fallback selection (wallet_agent.py lines 317-387) -/

/-- The amount prompt of the payments fallback (line 379). -/
def amountPrompt : String :=
  "Please provide an amount to send, e.g., \x27send 1 SUI to alice\x27."

/-- The recipient prompt of the payments fallback (line 381). -/
def recipientPrompt : String :=
  "Please provide a recipient (0x address or contact name)."

/-- _fallback_tool_selection: returns (tool_name, tool_args, error_msg). -/
def fallback_tool_selection (domain : Domain) (user_input : String) :
    Option String × Args × Option String :=
  let text := strLower user_input
  match domain with
  | .balance => (some "get_balance", [], Option.none)
  | .history =>
    let args : Args := match first_number text with
      | some q => if q ≠ 0 then [("limit", Value.num (Rat.floor q))] else []
      | Option.none => []
    (some "get_transaction_history", args, Option.none)
  | .nfts =>
    let args : Args := match first_number text with
      | some q => if q ≠ 0 then [("limit", Value.num (Rat.floor q))] else []
      | Option.none => []
    (some "get_nfts", args, Option.none)
  | .help =>
    if strIn "reset" text || strIn "clear" text then (some "reset_conversation", [], Option.none)
    else (some "get_help", [], Option.none)
  | .contacts =>
    if strIn "delete" text || strIn "remove" text then
      match verbCapture ["delete", "remove"] user_input with
      | some nm => (some "delete_contact", [("name", Value.str nm)], Option.none)
      | Option.none => (Option.none, [], some "Please tell me which contact to remove.")
    else if strIn "add" text || strIn "save" text then
      match find_address user_input, verbCapture ["add", "save"] user_input with
      | some address, some nm =>
        (some "add_new_contact", [("name", Value.str nm), ("address", Value.str address)],
          Option.none)
      | _, _ => (Option.none, [], some "To add a contact, say: add alice 0x123...")
    else (some "list_contacts", [], Option.none)
  | .payments =>
    let amount := first_number user_input
    let recipient : Option String := match find_address user_input with
      | some a => some a
      | Option.none => verbCapture ["to"] user_input
    match amount with
    | Option.none => (Option.none, [], some amountPrompt)
    | some q =>
      if q ≤ 0 then (Option.none, [], some amountPrompt)
      else
        match recipient with
        | Option.none => (Option.none, [], some recipientPrompt)
        | some r =>
          (some "send_sui", [("amount", Value.num q), ("recipient", Value.str r)], Option.none)
  | .conversation => (Option.none, [], Option.none)

/-! ## Tool selection node (wallet_agent.py lines 264-315) -/

/-- The fields the select_tool node writes into the graph state. -/
structure SelectOut where
  tool_name : Option String
  tool_args : Args
  result : Option String
deriving DecidableEq, Repr

/-- _select_tool. The constrained tool-calling model is an oracle:
`some (name, args)` models a reply carrying a tool call, `Option.none`
models a reply with no tool calls or the call raising (both leave
`state["tool_name"]` unset and engage the deterministic fallback). -/
def selectTool (sel : Option (String × Args)) (domain : Domain) (user_input : String) :
    SelectOut :=
  if (DOMAIN_TOOLS domain).isEmpty then
    { tool_name := Option.none, tool_args := [], result := Option.none }
  else
    let picked : Option String × Args := match sel with
      | some (n, a) => (some n, a)
      | Option.none => (Option.none, [])
    if optTruthy picked.1 then
      { tool_name := picked.1, tool_args := picked.2, result := Option.none }
    else
      match fallback_tool_selection domain user_input with
      | (some ft, fa, _) => { tool_name := some ft, tool_args := fa, result := Option.none }
      | (Option.none, _, msg) =>
        { tool_name := Option.none, tool_args := [],
          result := some (if optTruthy msg then msg.getD "" else
            "I understood you want help with " ++ domain.value
              ++ ", but I couldn\x27t determine the specific action. Please try again.") }

/-! ## Tool execution node (wallet_agent.py lines 389-465) -/

/-- What a tool invocation returns: plain text or a result dict
(`Except.error e` models the invocation raising with message `e`). -/
inductive ToolRet where
  | text : String → ToolRet
  | dict : Args → ToolRet
deriving DecidableEq, Repr

/-- The behaviour of the registered actions, as an oracle keyed by
tool name and final argument bag. -/
abbrev ExecOracle := String → Args → Except String ToolRet

/-- The tools double-checked for a wallet address at line 427. -/
def walletCheckTools : List String :=
  ["get_balance", "send_sui", "get_transaction_history", "get_nfts"]

/-- The context-injection loop of _run_tool (lines 404-422): for every declared
parameter named like a trusted context field whose context value is not None,
overwrite the argument bag with the trusted value. -/
def injectContext (params : List String) (args : Args) (user_id : String)
    (wallet_address : Option String) : Args :=
  params.foldl (fun a p =>
    if p = "user_id" then setArg a p (Value.str user_id)
    else if p = "wallet_address" then
      match wallet_address with
      | some w => setArg a p (Value.str w)
      | Option.none => a
    else a) args

/-- The fields the run_tool node writes into the graph state, plus the
invocation event `invoked`: the action actually called and the final
argument bag it received (`Option.none` when no action was invoked). -/
structure ToolOut where
  result : String
  needs_signing : Bool
  tx_data : Option Args
  error : Option String
  invoked : Option (String × Args)
deriving DecidableEq, Repr

/-- _run_tool, with the action behaviour supplied as an oracle. -/
def runTool (exec : ExecOracle) (user_id : String) (wallet_address : Option String)
    (tool_name : Option String) (tool_args : Args) (prior : Option String) : ToolOut :=
  if !(optTruthy tool_name) then
    { result := if optTruthy prior then prior.getD "" else "No action could be determined.",
      needs_signing := false, tx_data := Option.none, error := Option.none,
      invoked := Option.none }
  else
    let name := tool_name.getD ""
    match registryFind name with
    | Option.none =>
      { result := "❌ Unknown action: " ++ name, needs_signing := false,
        tx_data := Option.none, error := Option.none, invoked := Option.none }
    | some spec =>
      let args := injectContext spec.params tool_args user_id wallet_address
      if (hasKey args "wallet_address" || walletCheckTools.contains name)
          && !(getTruthy args "wallet_address") then
        { result := "❌ No wallet linked yet. Use /start to connect your wallet first.",
          needs_signing := false, tx_data := Option.none, error := some "no_wallet",
          invoked := Option.none }
      else
        match exec name args with
        | Except.error e =>
          { result := "❌ Error executing " ++ name ++ ": " ++ e, needs_signing := false,
            tx_data := Option.none, error := some e, invoked := some (name, args) }
        | Except.ok (ToolRet.text s) =>
          { result := s, needs_signing := false, tx_data := Option.none,
            error := Option.none, invoked := some (name, args) }
        | Except.ok (ToolRet.dict d) =>
          if getTruthy d "error" then
            { result := "❌ " ++ getStrOr d "error" "", needs_signing := false,
              tx_data := Option.none, error := Option.none, invoked := some (name, args) }
          else if getTruthy d "needs_signing" then
            { result := getStrOr d "message" "Transaction ready", needs_signing := true,
              tx_data := some d, error := Option.none, invoked := some (name, args) }
          else
            { result := getStrOr d "message" (pyStrDict d), needs_signing := false,
              tx_data := Option.none, error := Option.none, invoked := some (name, args) }

/-! ## Chat node and run() (wallet_agent.py lines 467-559) -/

/-- The static reply of the except branch of the chat node (line 499). -/
def chatStaticReply : String :=
  "I\x27m here to help with your Sui wallet! Try asking about your balance, sending SUI, or managing contacts."

/-- All external behaviours one run of the pipeline can observe: the
classifier reply, the tool-calling reply, the chat reply, the registered
actions, and whether the graph machinery itself raises (e.g. bind_tools),
which run() catches in its outer except. -/
structure Oracles where
  classify : Option DomainDecision
  select : Option (String × Args)
  chat : Option String
  exec : ExecOracle
  graphCrash : Bool

/-- The envelope run() returns, plus the invocation event of the run. -/
structure RunResult where
  text : String
  action : Option String
  needs_signing : Bool
  tx_data : Option Args
  domain : Option String
  invoked : Option (String × Args)
deriving DecidableEq, Repr

/-- `tool_name or (domain.value if domain != Domain.conversation else None)`. -/
def actionField (tool_name : Option String) (domain : Domain) : Option String :=
  if optTruthy tool_name then tool_name
  else if domain = Domain.conversation then Option.none else some domain.value

/-- run(): classify → wallet gate → (terminal error | chat | select + execute),
assembled exactly as the compiled graph routes (lines 125-155, 508-559). -/
def run (o : Oracles) (user_input user_id : String) (wallet_address : Option String) :
    RunResult :=
  if o.graphCrash then
    { text := "❌ Sorry, something went wrong. Try /help", action := Option.none,
      needs_signing := false, tx_data := Option.none, domain := Option.none,
      invoked := Option.none }
  else
    let c := classifyDomain o.classify user_input
    match checkWalletRequired c wallet_address with
    | some errText =>
      { text := errText, action := actionField Option.none c.domain,
        needs_signing := false, tx_data := Option.none, domain := some c.domain.value,
        invoked := Option.none }
    | Option.none =>
      if (DOMAIN_TOOLS c.domain).isEmpty then
        { text := match o.chat with
            | some s => s
            | Option.none => chatStaticReply,
          action := actionField Option.none c.domain, needs_signing := false,
          tx_data := Option.none, domain := some c.domain.value, invoked := Option.none }
      else
        let s := selectTool o.select c.domain user_input
        let t := runTool o.exec user_id wallet_address s.tool_name s.tool_args s.result
        { text := t.result, action := actionField s.tool_name c.domain,
          needs_signing := t.needs_signing, tx_data := t.tx_data,
          domain := some c.domain.value, invoked := t.invoked }

/-! ## The transaction-history action (tools.py lines 141-162) -/

/-- The default of the `limit` parameter of get_transaction_history. -/
def historyDefaultLimit : ℤ := 5

/-- The limit get_transaction_history actually passes to the history
service: `limit = min(max(1, limit), 20)` (tools.py line 150). -/
def historyQueryLimit (limit : ℤ) : ℤ := min (max 1 limit) 20

/-! ## Concrete oracle behaviours used by the claim analyses -/

/-- The oracle behaviours of the C1 failing input: the classifier honestly
labels a contacts request (contacts does not require a wallet), and the
tool-calling model replies with a call to get_balance carrying a
hallucinated wallet_address argument. -/
def C1oracles : Oracles :=
  { classify := some ⟨Domain.contacts, 0.9, "contacts request", false⟩,
    select := some ("get_balance", [("wallet_address", Value.str "0xdeadbeef")]),
    chat := Option.none,
    exec := fun _ _ => Except.ok (ToolRet.text "💰 Balance: 1 SUI"),
    graphCrash := false }

/-- A well-formed 0x hex address of 42 characters, standing for 0xCCC…CCC. -/
def addr40c : String := "0x" ++ String.mk (List.replicate 40 'c')

/-- Oracles for the C7 failing input: both generative calls fail, so the
classification falls back to keywords and the selection falls back to the
deterministic contacts extractor. -/
def C7oracles : Oracles :=
  { classify := Option.none,
    select := Option.none,
    chat := Option.none,
    exec := fun _ _ => Except.ok (ToolRet.text "✅ Added contact"),
    graphCrash := false }

/-- Oracles for the C2 counterexample: the semantic classifier returns the
payments domain but reports requires_wallet = False (the DomainDecision
schema does not tie the flag to the domain), and tool selection fails. -/
def C2oracles : Oracles :=
  { classify := some ⟨Domain.payments, 0.9, "payment request", false⟩,
    select := Option.none,
    chat := Option.none,
    exec := fun _ _ => Except.error "unused",
    graphCrash := false }

/-- Oracles for the C2 witness: an honest balance classification with no
wallet linked. -/
def C2witnessOracles : Oracles :=
  { classify := some ⟨Domain.balance, 0.9, "balance request", true⟩,
    select := Option.none,
    chat := Option.none,
    exec := fun _ _ => Except.error "unused",
    graphCrash := false }

/-- The side condition under which the verbatim text copies made by the executor are
non-empty: a plain-text action result is non-empty, and a structured result
carrying a message field carries a non-empty one. -/
def retTextSafe : ToolRet → Prop
  | ToolRet.text s => s ≠ ""
  | ToolRet.dict d => ∀ v, getArg d "message" = some v → v.pyStr ≠ ""

/-- Oracles for the C3 counterexample: a pure-greeting classification with
the chat model returning the empty string. -/
def C3oracles : Oracles :=
  { classify := some ⟨Domain.conversation, 0.9, "greeting", false⟩,
    select := Option.none,
    chat := some "",
    exec := fun _ _ => Except.error "unused",
    graphCrash := false }

/-- Oracles for the C3 witness: every generative call raises. -/
def C3witnessOracles : Oracles :=
  { classify := Option.none,
    select := Option.none,
    chat := Option.none,
    exec := fun _ _ => Except.error "boom",
    graphCrash := false }

/-- The registry entry of send_sui, as resolved by registryFind. -/
def sendSuiSpec : ToolSpec := ⟨"send_sui", ["recipient", "amount", "wallet_address", "user_id"]⟩

/-- The argument bag the tool-calling model supplies in the C5 witness. -/
def C5ta : Args := [("recipient", Value.str "0xabc"), ("amount", Value.str "1")]

/-- The structured signing payload the action returns in the C5 witness. -/
def C5dict : Args :=
  [("action", Value.str "send_sui"), ("needs_signing", Value.bool true),
    ("message", Value.str "📋 Ready to send 1 SUI to 0xabc")]

/-- The action behaviour of the C5 witness. -/
def C5exec : ExecOracle := fun _ _ => Except.ok (ToolRet.dict C5dict)

/-- Oracles for the C6 witness: an honest payments classification with a
linked wallet, and failing tool selection. -/
def C6oracles : Oracles :=
  { classify := some ⟨Domain.payments, 0.9, "payment request", true⟩,
    select := Option.none,
    chat := Option.none,
    exec := fun _ _ => Except.error "unused",
    graphCrash := false }

/-- Oracles for the C8 witness: a send_sui run that returns a signing
payload. -/
def C8oracles : Oracles :=
  { classify := some ⟨Domain.payments, 0.9, "payment request", true⟩,
    select := some ("send_sui",
      [("recipient", Value.str "0xabc"), ("amount", Value.str "1")]),
    chat := Option.none,
    exec := fun _ _ => Except.ok (ToolRet.dict
      [("action", Value.str "send_sui"), ("needs_signing", Value.bool true),
        ("message", Value.str "📋 Ready to send 1 SUI to 0xabc")]),
    graphCrash := false }

/-! ## Helper lemmas -/

theorem isPre_append (n l m : List Char) (h : isPre n l = true) : isPre n (l ++ m) = true := by
  induction n generalizing l with
  | nil => simp [isPre]
  | cons a as ih =>
    cases l with
    | nil => simp [isPre] at h
    | cons b bs =>
      simp only [isPre, List.cons_append, Bool.and_eq_true] at h ⊢
      exact ⟨h.1, ih bs h.2⟩

theorem subList_nil_left (m : List Char) : subList [] m = true := by
  cases m <;> simp [subList, isPre]

theorem subList_append_left (n l m : List Char) (h : subList n l = true) :
    subList n (l ++ m) = true := by
  induction l with
  | nil =>
    cases n with
    | nil => simpa using subList_nil_left m
    | cons c t => simp [subList, isPre] at h
  | cons c t ih =>
    simp only [subList, Bool.or_eq_true] at h
    rcases h with h | h
    · simp only [List.cons_append, subList, Bool.or_eq_true]
      exact Or.inl (isPre_append _ _ _ h)
    · simp only [List.cons_append, subList, Bool.or_eq_true]
      exact Or.inr (ih h)

theorem strIn_append_left (needle s t : String) (h : strIn needle s = true) :
    strIn needle (s ++ t) = true := by
  obtain ⟨ls⟩ := s
  obtain ⟨lt⟩ := t
  exact subList_append_left _ _ _ h

theorem appendNeEmpty (a b : String) (h : a ≠ "") : a ++ b ≠ "" := by
  obtain ⟨la⟩ := a
  obtain ⟨lb⟩ := b
  intro heq
  apply h
  have hdata : la ++ lb = [] := congrArg String.data heq
  rcases List.append_eq_nil.mp hdata with ⟨h1, _⟩
  exact congrArg String.mk h1

/-! ## Claim theorems -/

/-- Claim C1: the code is meant to ALWAYS overwrite a wallet_address argument
with the trusted caller-supplied value (comments at wallet_agent.py lines
405, 416-417), but the injection loop skips the overwrite when the trusted
value is None, and the line-427 check then accepts the model-produced value
as truthy: with no wallet linked, get_balance is invoked with the
hallucinated address "0xdeadbeef". -/
theorem C1_model_address_reaches_action :
    (run C1oracles "add contact please" "u1" Option.none).invoked
        = some ("get_balance", [("wallet_address", Value.str "0xdeadbeef")])
      ∧ (run C1oracles "add contact please" "u1" Option.none).text = "💰 Balance: 1 SUI" :=
  ⟨by decide, by decide⟩

/-- Claim C7: on "add contact bob 0xCCC…CCC" the deterministic contacts
fallback is specified to extract name "bob", but its pattern captures the
first word after the add/save verb, which here is "contact": the pipeline
invokes add_new_contact with name "contact", not "bob". -/
theorem C7_fallback_extracts_contact_not_bob :
    fallback_tool_selection Domain.contacts ("add contact bob " ++ addr40c)
        = (some "add_new_contact",
            [("name", Value.str "contact"), ("address", Value.str addr40c)], Option.none)
      ∧ (run C7oracles ("add contact bob " ++ addr40c) "u1" Option.none).invoked
        = some ("add_new_contact",
            [("name", Value.str "contact"), ("address", Value.str addr40c),
              ("user_id", Value.str "u1")]) :=
  ⟨by decide, by decide⟩

/-- Claim C2, counterexample: wallet absent and effective domain payments
(a wallet-required domain), yet the returned text is the amount prompt and
does not signal "no wallet linked" — the gate keys on the
requires_wallet flag of the classifier, which the semantic path copies verbatim. -/
theorem C2_counterexample :
    (run C2oracles "send stuff to alice" "u1" Option.none).domain = some "payments"
      ∧ (run C2oracles "send stuff to alice" "u1" Option.none).text = amountPrompt
      ∧ strIn "No wallet linked"
          (run C2oracles "send stuff to alice" "u1" Option.none).text = false
      ∧ (run C2oracles "send stuff to alice" "u1" Option.none).invoked = Option.none :=
  ⟨by decide, by decide, by decide, by decide⟩

/-- Claim C2 (amended): if the wallet address is absent, the effective domain
is wallet-required, and the recorded requires_wallet flag is true (as it is
on the keyword-override and error-fallback classification paths, and on the
semantic path whenever the classifier reports the flag consistently), then
run() returns the terminal "no wallet linked" envelope and no action is
invoked. -/
theorem C2_no_wallet_gate (o : Oracles) (input uid : String)
    (hcrash : o.graphCrash = false)
    (hdom : walletRequiredDomains.contains (classifyDomain o.classify input).domain = true)
    (hreq : (classifyDomain o.classify input).requires_wallet = true) :
    strIn "No wallet linked" (run o input uid Option.none).text = true
      ∧ (run o input uid Option.none).invoked = Option.none
      ∧ (run o input uid Option.none).needs_signing = false := by
  have hc : checkWalletRequired (classifyDomain o.classify input) Option.none
      = some ("❌ No wallet linked. Use /start to connect your Sui wallet first to "
        ++ walletActionName (classifyDomain o.classify input).domain ++ ".") := by
    have hmem : (classifyDomain o.classify input).domain ∈ walletRequiredDomains :=
      List.mem_of_elem_eq_true hdom
    simp [checkWalletRequired, hreq, hdom, optTruthy, hmem]
  have hrun : run o input uid Option.none
      = { text := "❌ No wallet linked. Use /start to connect your Sui wallet first to "
            ++ walletActionName (classifyDomain o.classify input).domain ++ ".",
          action := actionField Option.none (classifyDomain o.classify input).domain,
          needs_signing := false, tx_data := Option.none,
          domain := some (classifyDomain o.classify input).domain.value,
          invoked := Option.none } := by
    unfold run
    rw [hcrash]
    simp only [Bool.false_eq_true, if_false, hc]
  refine ⟨?_, by rw [hrun], by rw [hrun]⟩
  rw [hrun]
  exact strIn_append_left _ _ _
    (strIn_append_left _ _ _ (by decide))

/-- Claim C2, witness: a concrete run through the gate. -/
theorem C2_witness :
    strIn "No wallet linked"
        (run C2witnessOracles "what is my balance?" "u1" Option.none).text = true
      ∧ (run C2witnessOracles "what is my balance?" "u1" Option.none).invoked = Option.none
      ∧ (run C2witnessOracles "what is my balance?" "u1" Option.none).needs_signing = false :=
  C2_no_wallet_gate C2witnessOracles "what is my balance?" "u1" rfl (by decide) (by decide)

theorem runTool_result_ne (exec : ExecOracle) (uid : String) (w : Option String)
    (tn : Option String) (ta : Args) (prior : Option String)
    (hexec : ∀ n a r, exec n a = Except.ok r → retTextSafe r) :
    (runTool exec uid w tn ta prior).result ≠ "" := by
  unfold runTool
  by_cases htn : optTruthy tn = true
  · rw [if_neg (by rw [htn]; decide)]
    cases hreg : registryFind (tn.getD "") with
    | none =>
      simp only [hreg]
      exact appendNeEmpty _ _ (by decide)
    | some spec =>
      simp only [hreg]
      by_cases hchk : ((hasKey (injectContext spec.params ta uid w) "wallet_address"
          || walletCheckTools.contains (tn.getD ""))
          && !(getTruthy (injectContext spec.params ta uid w) "wallet_address")) = true
      · rw [if_pos hchk]
        decide
      · rw [if_neg hchk]
        cases hex : exec (tn.getD "") (injectContext spec.params ta uid w) with
        | error e =>
          simp only [hex]
          exact appendNeEmpty _ _ (appendNeEmpty _ _ (appendNeEmpty _ _ (by decide)))
        | ok r =>
          cases r with
          | text s =>
            simp only [hex]
            exact hexec _ _ _ hex
          | dict d =>
            simp only [hex]
            by_cases herr : getTruthy d "error" = true
            · rw [if_pos herr]
              exact appendNeEmpty _ _ (by decide)
            · rw [if_neg herr]
              by_cases hsig : getTruthy d "needs_signing" = true
              · rw [if_pos hsig]
                unfold getStrOr
                cases hm : getArg d "message" with
                | none => simp only [hm]; decide
                | some v =>
                  simp only [hm]
                  exact hexec _ _ _ hex v hm
              · rw [if_neg hsig]
                unfold getStrOr
                cases hm : getArg d "message" with
                | none =>
                  simp only [hm]
                  unfold pyStrDict
                  exact appendNeEmpty _ _ (appendNeEmpty _ _ (by decide))
                | some v =>
                  simp only [hm]
                  exact hexec _ _ _ hex v hm
  · simp only [Bool.not_eq_true] at htn
    rw [if_pos (by rw [htn]; decide)]
    by_cases hp : optTruthy prior = true
    · cases prior with
      | none => simp [optTruthy] at hp
      | some p =>
        rw [if_pos hp]
        have hp2 : p ≠ "" := by simpa [optTruthy] using hp
        simpa using hp2
    · rw [if_neg hp]
      decide

/-- Claim C3, counterexample: the chat node copies the reply of the chat model
verbatim into the envelope, so a run whose chat reply is the empty string
returns an envelope with empty text (the no-exception half of the claim
holds; the non-emptiness half fails). -/
theorem C3_counterexample :
    (run C3oracles "hola" "u1" Option.none).text = "" := by decide

/-- Claim C3 (amended): run() is total over every modelled behaviour of the
classification, selection, chat and action calls — every exception is
caught — and the envelope text is non-empty provided the downstream texts
that the pipeline copies verbatim (a chat reply, a plain-text action
result, the message field of a structured result) are themselves non-empty. -/
theorem C3_text_nonempty (o : Oracles) (input uid : String) (w : Option String)
    (hchat : ∀ s, o.chat = some s → s ≠ "")
    (hexec : ∀ n a r, o.exec n a = Except.ok r → retTextSafe r) :
    (run o input uid w).text ≠ "" := by
  unfold run
  by_cases hg : o.graphCrash = true
  · rw [if_pos hg]
    decide
  · rw [if_neg hg]
    by_cases hcond : ((classifyDomain o.classify input).requires_wallet
        && !(optTruthy w)
        && walletRequiredDomains.contains (classifyDomain o.classify input).domain) = true
    · have hc : checkWalletRequired (classifyDomain o.classify input) w
          = some ("❌ No wallet linked. Use /start to connect your Sui wallet first to "
            ++ walletActionName (classifyDomain o.classify input).domain ++ ".") := by
        unfold checkWalletRequired
        rw [if_pos hcond]
      simp only [hc]
      exact appendNeEmpty _ _ (appendNeEmpty _ _ (by decide))
    · have hc : checkWalletRequired (classifyDomain o.classify input) w = Option.none := by
        unfold checkWalletRequired
        rw [if_neg hcond]
      simp only [hc]
      by_cases hte : (DOMAIN_TOOLS (classifyDomain o.classify input).domain).isEmpty = true
      · rw [if_pos hte]
        cases hch : o.chat with
        | none => simp only [hch]; decide
        | some s => simp only [hch]; exact hchat s hch
      · rw [if_neg hte]
        exact runTool_result_ne _ _ _ _ _ _ hexec

/-- Claim C3, witness: a run in which every generative call raises still
returns a non-empty text. -/
theorem C3_witness : (run C3witnessOracles "hola" "u1" Option.none).text ≠ "" :=
  C3_text_nonempty C3witnessOracles "hola" "u1" Option.none
    (fun s h => by simp only [C3witnessOracles] at h; cases h)
    (fun n a r h => by simp only [C3witnessOracles] at h; cases h)

/-- Claim C4, counterexample: with the semantic classifier saying
conversation on the text "balance", the keyword override fires with
confidence 0.8 and domain balance, but the recorded reason is
"Keyword match for balance", not the literal "keyword match". -/
theorem C4_counterexample :
    (classifyDomain (some ⟨Domain.conversation, 0.9, "greeting", true⟩) "balance").domain
        = Domain.balance
      ∧ (classifyDomain
          (some ⟨Domain.conversation, 0.9, "greeting", true⟩) "balance").domain_confidence
        = 0.8
      ∧ (classifyDomain
          (some ⟨Domain.conversation, 0.9, "greeting", true⟩) "balance").domain_reason
        = "Keyword match for balance"
      ∧ (classifyDomain
          (some ⟨Domain.conversation, 0.9, "greeting", true⟩) "balance").domain_reason
        ≠ "keyword match" := by
  have h : classifyDomain (some ⟨Domain.conversation, 0.9, "greeting", true⟩) "balance"
      = { domain := Domain.balance, domain_confidence := 0.8,
          domain_reason := "Keyword match for balance", requires_wallet := true } := by
    unfold classifyDomain
    have hk : keyword_classify "balance" = some Domain.balance := by decide
    simp only [hk]
    rw [if_pos trivial]
    rfl
  exact ⟨by rw [h], by rw [h], by rw [h], by rw [h]; decide⟩

/-- Claim C4 (amended): if the semantic classifier returns conversation but
the keyword table matches a domain, the effective decision is exactly the
keyword domain with confidence 0.8, requires_wallet set by membership in
the wallet-required set, and reason "Keyword match for <domain>". -/
theorem C4_keyword_override (d : DomainDecision) (input : String) (k : Domain)
    (hconv : d.domain = Domain.conversation)
    (hk : keyword_classify input = some k) :
    classifyDomain (some d) input
      = { domain := k, domain_confidence := 0.8,
          domain_reason := "Keyword match for " ++ k.value,
          requires_wallet := walletRequiredDomains.contains k } := by
  unfold classifyDomain
  simp only [hk, hconv, if_true]

/-- Claim C4, witness: a concrete keyword override. -/
theorem C4_witness :
    classifyDomain (some ⟨Domain.conversation, 0.9, "greeting", true⟩) "balance"
      = { domain := Domain.balance, domain_confidence := 0.8,
          domain_reason := "Keyword match for balance", requires_wallet := true } :=
  C4_keyword_override ⟨Domain.conversation, 0.9, "greeting", true⟩ "balance"
    Domain.balance rfl (by decide)

/-- Claim C9, counterexample: the semantic path copies the reported
requires_wallet flag verbatim, so a decision {domain = balance,
requires_wallet = False} is recorded as-is: the flag disagrees with
membership of the effective domain in {balance, payments, history, nfts}. -/
theorem C9_counterexample :
    walletRequiredDomains.contains
        (classifyDomain (some ⟨Domain.balance, 0.9, "balance request", false⟩) "zzz").domain
        = true
      ∧ (classifyDomain
          (some ⟨Domain.balance, 0.9, "balance request", false⟩) "zzz").requires_wallet
        = false :=
  ⟨by decide, by decide⟩

/-- Claim C9 (amended): requires_wallet equals membership of the effective
domain in the wallet-required set on the error-fallback path and on the
keyword-override path; on the plain semantic path the recorded flag and
domain are those reported by the classifier, so the invariant there holds exactly when
the classifier reports the flag consistently. -/
theorem C9_requires_wallet_consistency (llm : Option DomainDecision) (input : String) :
    (llm = Option.none →
      (classifyDomain llm input).requires_wallet
        = walletRequiredDomains.contains (classifyDomain llm input).domain)
    ∧ (∀ d, llm = some d → d.domain = Domain.conversation →
        keyword_classify input ≠ Option.none →
        (classifyDomain llm input).requires_wallet
          = walletRequiredDomains.contains (classifyDomain llm input).domain)
    ∧ (∀ d, llm = some d →
        (d.domain ≠ Domain.conversation ∨ keyword_classify input = Option.none) →
        (classifyDomain llm input).requires_wallet = d.requires_wallet
          ∧ (classifyDomain llm input).domain = d.domain) := by
  refine ⟨?_, ?_, ?_⟩
  · intro h
    subst h
    unfold classifyDomain
    cases hk : keyword_classify input with
    | none => simp only [hk]; decide
    | some k => simp only [hk]
  · intro d h hconv hk
    subst h
    unfold classifyDomain
    cases hk2 : keyword_classify input with
    | none => exact absurd hk2 hk
    | some k => simp only [hk2, hconv, if_true]
  · intro d h hcase
    subst h
    unfold classifyDomain
    cases hk : keyword_classify input with
    | none => simp [hk]
    | some k =>
      rcases hcase with hne | hnone
      · simp only [hk]
        rw [if_neg hne]
        exact ⟨rfl, rfl⟩
      · rw [hk] at hnone
        cases hnone

/-- Claim C9, witness: the error-fallback path at the text "balance". -/
theorem C9_witness :
    ((Option.none : Option DomainDecision) = Option.none →
      (classifyDomain Option.none "balance").requires_wallet
        = walletRequiredDomains.contains (classifyDomain Option.none "balance").domain)
    ∧ (∀ d, (Option.none : Option DomainDecision) = some d →
        d.domain = Domain.conversation → keyword_classify "balance" ≠ Option.none →
        (classifyDomain Option.none "balance").requires_wallet
          = walletRequiredDomains.contains (classifyDomain Option.none "balance").domain)
    ∧ (∀ d, (Option.none : Option DomainDecision) = some d →
        (d.domain ≠ Domain.conversation ∨ keyword_classify "balance" = Option.none) →
        (classifyDomain Option.none "balance").requires_wallet = d.requires_wallet
          ∧ (classifyDomain Option.none "balance").domain = d.domain) :=
  C9_requires_wallet_consistency Option.none "balance"

theorem runTool_reduce (exec : ExecOracle) (uid : String) (w : Option String)
    (n : String) (ta : Args) (spec : ToolSpec)
    (hreg : registryFind n = some spec) (hn : n ≠ "")
    (hwc : ((hasKey (injectContext spec.params ta uid w) "wallet_address"
        || walletCheckTools.contains n)
        && !(getTruthy (injectContext spec.params ta uid w) "wallet_address")) = false) :
    runTool exec uid w (some n) ta Option.none
      = match exec n (injectContext spec.params ta uid w) with
        | Except.error e =>
          { result := "❌ Error executing " ++ n ++ ": " ++ e, needs_signing := false,
            tx_data := Option.none, error := some e,
            invoked := some (n, injectContext spec.params ta uid w) }
        | Except.ok (ToolRet.text s) =>
          { result := s, needs_signing := false, tx_data := Option.none,
            error := Option.none, invoked := some (n, injectContext spec.params ta uid w) }
        | Except.ok (ToolRet.dict d) =>
          if getTruthy d "error" then
            { result := "❌ " ++ getStrOr d "error" "", needs_signing := false,
              tx_data := Option.none, error := Option.none,
              invoked := some (n, injectContext spec.params ta uid w) }
          else if getTruthy d "needs_signing" then
            { result := getStrOr d "message" "Transaction ready", needs_signing := true,
              tx_data := some d, error := Option.none,
              invoked := some (n, injectContext spec.params ta uid w) }
          else
            { result := getStrOr d "message" (pyStrDict d), needs_signing := false,
              tx_data := Option.none, error := Option.none,
              invoked := some (n, injectContext spec.params ta uid w) } := by
  have ht : optTruthy (some n) = true := by simp [optTruthy, hn]
  simp only [runTool, Option.getD_some, hreg]
  rw [if_neg (by rw [ht]; decide)]
  rw [if_neg (by rw [hwc]; decide)]

/-- Claim C5: for every selected action and argument bag that pass the
registry lookup and the wallet double-check, the executor normalizes the
return of the action exactly as specified: an exception becomes the
"Error executing <action>" envelope and never propagates; a structured
value with a truthy error field becomes "❌ " + error; one with truthy
needs_signing yields the provided message (default "Transaction ready"),
needs_signing = true and tx_data = the full structured value; any other
structured value yields its message or its stringification; plain text is
passed through. -/
theorem C5_executor_normalization (exec : ExecOracle) (uid : String) (w : Option String)
    (n : String) (ta : Args) (spec : ToolSpec)
    (hreg : registryFind n = some spec) (hn : n ≠ "")
    (hwc : ((hasKey (injectContext spec.params ta uid w) "wallet_address"
        || walletCheckTools.contains n)
        && !(getTruthy (injectContext spec.params ta uid w) "wallet_address")) = false) :
    (∀ e, exec n (injectContext spec.params ta uid w) = Except.error e →
      runTool exec uid w (some n) ta Option.none
        = { result := "❌ Error executing " ++ n ++ ": " ++ e, needs_signing := false,
            tx_data := Option.none, error := some e,
            invoked := some (n, injectContext spec.params ta uid w) })
    ∧ (∀ s, exec n (injectContext spec.params ta uid w) = Except.ok (ToolRet.text s) →
      runTool exec uid w (some n) ta Option.none
        = { result := s, needs_signing := false, tx_data := Option.none,
            error := Option.none, invoked := some (n, injectContext spec.params ta uid w) })
    ∧ (∀ d e, exec n (injectContext spec.params ta uid w) = Except.ok (ToolRet.dict d) →
      getArg d "error" = some (Value.str e) → e ≠ "" →
      runTool exec uid w (some n) ta Option.none
        = { result := "❌ " ++ e, needs_signing := false, tx_data := Option.none,
            error := Option.none, invoked := some (n, injectContext spec.params ta uid w) })
    ∧ (∀ d, exec n (injectContext spec.params ta uid w) = Except.ok (ToolRet.dict d) →
      getTruthy d "error" = false → getTruthy d "needs_signing" = true →
      runTool exec uid w (some n) ta Option.none
        = { result := getStrOr d "message" "Transaction ready", needs_signing := true,
            tx_data := some d, error := Option.none,
            invoked := some (n, injectContext spec.params ta uid w) })
    ∧ (∀ d, exec n (injectContext spec.params ta uid w) = Except.ok (ToolRet.dict d) →
      getTruthy d "error" = false → getTruthy d "needs_signing" = false →
      runTool exec uid w (some n) ta Option.none
        = { result := getStrOr d "message" (pyStrDict d), needs_signing := false,
            tx_data := Option.none, error := Option.none,
            invoked := some (n, injectContext spec.params ta uid w) }) := by
  have hred := runTool_reduce exec uid w n ta spec hreg hn hwc
  refine ⟨?_, ?_, ?_, ?_, ?_⟩
  · intro e hex
    rw [hred]
    simp only [hex]
  · intro s hex
    rw [hred]
    simp only [hex]
  · intro d e hex hm he
    have herr : getTruthy d "error" = true := by
      unfold getTruthy
      rw [hm]
      simp [Value.truthy, he]
    have hval : getStrOr d "error" "" = e := by
      unfold getStrOr
      rw [hm]
      rfl
    rw [hred]
    simp only [hex]
    rw [if_pos herr, hval]
  · intro d hex herr hsig
    rw [hred]
    simp only [hex]
    rw [if_neg (by rw [herr]; decide), if_pos hsig]
  · intro d hex herr hsig
    rw [hred]
    simp only [hex]
    rw [if_neg (by rw [herr]; decide), if_neg (by rw [hsig]; decide)]

/-- Claim C5, witness: a send_sui invocation returning a signing payload. -/
theorem C5_witness :
    runTool C5exec "u1" (some "0xsender") (some "send_sui") C5ta Option.none
      = { result := "📋 Ready to send 1 SUI to 0xabc", needs_signing := true,
          tx_data := some C5dict, error := Option.none,
          invoked := some ("send_sui",
            injectContext sendSuiSpec.params C5ta "u1" (some "0xsender")) } :=
  (C5_executor_normalization C5exec "u1" (some "0xsender") "send_sui" C5ta sendSuiSpec
      (by decide) (by decide) (by decide)).2.2.2.1 C5dict rfl (by decide) (by decide)

/-- Claim C6: in the payments domain, when the deterministic fallback cannot
extract a positive numeric amount it returns no selection together with the
amount prompt, and when it cannot extract any recipient it returns no
selection with the recipient prompt; in both cases run() surfaces the
prompt verbatim and no registered action is invoked — no value is ever
guessed for the missing field. -/
theorem C6_payments_fallback_prompts (o : Oracles) (input uid : String) (w : Option String)
    (hcrash : o.graphCrash = false)
    (hdom : (classifyDomain o.classify input).domain = Domain.payments)
    (hgate : checkWalletRequired (classifyDomain o.classify input) w = Option.none)
    (hsel : o.select = Option.none) :
    ((∀ q, first_number input = some q → q ≤ 0) →
      (run o input uid w).text = amountPrompt ∧ (run o input uid w).invoked = Option.none)
    ∧ (∀ q, first_number input = some q → 0 < q →
        find_address input = Option.none → verbCapture ["to"] input = Option.none →
        (run o input uid w).text = recipientPrompt
          ∧ (run o input uid w).invoked = Option.none) := by
  have hrun : ∀ msg, fallback_tool_selection Domain.payments input
      = (Option.none, [], some msg) → msg ≠ "" →
      (run o input uid w).text = msg ∧ (run o input uid w).invoked = Option.none := by
    intro msg hfb hmsg
    have hst : selectTool o.select Domain.payments input
        = { tool_name := Option.none, tool_args := [], result := some msg } := by
      rw [hsel]
      simp only [selectTool]
      rw [if_neg (by decide)]
      rw [if_neg (by decide)]
      simp only [hfb]
      rw [if_pos (by simp [optTruthy, hmsg])]
      simp only [Option.getD_some]
    have hrt : runTool o.exec uid w Option.none [] (some msg)
        = { result := msg, needs_signing := false, tx_data := Option.none,
            error := Option.none, invoked := Option.none } := by
      simp only [runTool]
      rw [if_pos (by decide)]
      rw [if_pos (by simp [optTruthy, hmsg])]
      simp only [Option.getD_some]
    have hfull : run o input uid w
        = { text := msg, action := actionField Option.none Domain.payments,
            needs_signing := false, tx_data := Option.none,
            domain := some Domain.payments.value, invoked := Option.none } := by
      simp only [run]
      rw [if_neg (by rw [hcrash]; decide)]
      simp only [hgate, hdom]
      rw [if_neg (by decide)]
      rw [hst]
      simp only []
      rw [hrt]
    exact ⟨by rw [hfull], by rw [hfull]⟩
  refine ⟨?_, ?_⟩
  · intro hle
    refine hrun amountPrompt ?_ (by decide)
    simp only [fallback_tool_selection]
    cases hq : first_number input with
    | none => simp only [hq]
    | some q =>
      simp only [hq]
      rw [if_pos (hle q hq)]
  · intro q hq hpos hfa hto
    refine hrun recipientPrompt ?_ (by decide)
    simp only [fallback_tool_selection, hq, hfa, hto]
    rw [if_neg (not_le.mpr hpos)]

/-- Claim C6, witness: "send stuff to alice" has no extractable amount, so
the run ends in the amount prompt with no invocation. -/
theorem C6_witness :
    (run C6oracles "send stuff to alice" "u1" (some "0xsender")).text = amountPrompt
      ∧ (run C6oracles "send stuff to alice" "u1" (some "0xsender")).invoked = Option.none :=
  (C6_payments_fallback_prompts C6oracles "send stuff to alice" "u1" (some "0xsender")
      rfl (by decide) (by decide) rfl).1
    (by
      intro q hq
      have h0 : first_number "send stuff to alice" = Option.none := by decide
      rw [h0] at hq
      exact Option.noConfusion hq)

theorem runTool_signing_tx (exec : ExecOracle) (uid : String) (w : Option String)
    (tn : Option String) (ta : Args) (prior : Option String)
    (h : (runTool exec uid w tn ta prior).needs_signing = true) :
    (runTool exec uid w tn ta prior).tx_data.isSome = true := by
  unfold runTool at h ⊢
  by_cases htn : optTruthy tn = true
  · rw [if_neg (by rw [htn]; decide)] at h ⊢
    cases hreg : registryFind (tn.getD "") with
    | none =>
      simp only [hreg] at h
      simp at h
    | some spec =>
      simp only [hreg] at h ⊢
      by_cases hchk : ((hasKey (injectContext spec.params ta uid w) "wallet_address"
          || walletCheckTools.contains (tn.getD ""))
          && !(getTruthy (injectContext spec.params ta uid w) "wallet_address")) = true
      · rw [if_pos hchk] at h
        simp at h
      · rw [if_neg hchk] at h ⊢
        cases hex : exec (tn.getD "") (injectContext spec.params ta uid w) with
        | error e =>
          simp only [hex] at h
          simp at h
        | ok r =>
          cases r with
          | text s =>
            simp only [hex] at h
            simp at h
          | dict d =>
            simp only [hex] at h ⊢
            by_cases herr : getTruthy d "error" = true
            · rw [if_pos herr] at h
              simp at h
            · rw [if_neg herr] at h ⊢
              by_cases hsig : getTruthy d "needs_signing" = true
              · rw [if_pos hsig]
                rfl
              · rw [if_neg hsig] at h
                simp at h
  · simp only [Bool.not_eq_true] at htn
    rw [if_pos (by rw [htn]; decide)] at h
    simp at h

/-- Claim C8: in every envelope run() returns, needs_signing = true implies
tx_data is present — the executor sets needs_signing only in the branch
that also stores the full structured return value of the action in tx_data. -/
theorem C8_needs_signing_implies_txdata (o : Oracles) (input uid : String)
    (w : Option String)
    (h : (run o input uid w).needs_signing = true) :
    (run o input uid w).tx_data.isSome = true := by
  unfold run at h ⊢
  by_cases hg : o.graphCrash = true
  · rw [if_pos hg] at h
    simp at h
  · rw [if_neg hg] at h ⊢
    cases hc : checkWalletRequired (classifyDomain o.classify input) w with
    | some e =>
      simp only [hc] at h
      simp at h
    | none =>
      simp only [hc] at h ⊢
      by_cases hte : (DOMAIN_TOOLS (classifyDomain o.classify input).domain).isEmpty = true
      · rw [if_pos hte] at h
        simp at h
      · rw [if_neg hte] at h ⊢
        exact runTool_signing_tx _ _ _ _ _ _ h

/-- Claim C8, witness: a signing run has tx_data present. -/
theorem C8_witness :
    (run C8oracles "send 1 sui to 0xabc" "u1" (some "0xsender")).needs_signing = true
      ∧ (run C8oracles "send 1 sui to 0xabc" "u1" (some "0xsender")).tx_data.isSome = true :=
  ⟨by decide,
    C8_needs_signing_implies_txdata C8oracles "send 1 sui to 0xabc" "u1" (some "0xsender")
      (by decide)⟩

/-- Claim C10: the transaction-history action queries the history service
with its limit clamped to the inclusive range [1, 20]: values below 1
become 1, values above 20 become 20, in-range values pass unchanged, and
the default limit 5 stays 5. -/
theorem C10_history_limit_clamped (l : ℤ) :
    1 ≤ historyQueryLimit l ∧ historyQueryLimit l ≤ 20
      ∧ (l < 1 → historyQueryLimit l = 1)
      ∧ (20 < l → historyQueryLimit l = 20)
      ∧ (1 ≤ l → l ≤ 20 → historyQueryLimit l = l)
      ∧ historyQueryLimit historyDefaultLimit = 5 := by
  unfold historyQueryLimit historyDefaultLimit
  refine ⟨?_, ?_, ?_, ?_, ?_, ?_⟩ <;> omega

/-- Claim C10, witness: 25 is clamped to 20, and the default 5 passes. -/
theorem C10_witness :
    historyQueryLimit 25 = 20 ∧ historyQueryLimit historyDefaultLimit = 5 :=
  ⟨(C10_history_limit_clamped 25).2.2.2.1 (by decide),
    (C10_history_limit_clamped 25).2.2.2.2.2⟩

end Caishen
